import Mathlib

/-!
Verification of the PICA data-preparation scripts.

Each Python script is shallowly embedded: a pandas DataFrame becomes a
`List` of row structures (rows in file order), a boolean row mask becomes a
`List Bool`, and each script's transformation stage becomes a pure Lean
function translated statement-by-statement from the source.
-/

set_option autoImplicit false

universe u v

/-- `df.loc[mask, :]`: keep the rows whose mask entry is `True`,
in their original order. -/
def maskFilter {α : Type u} (rows : List α) (mask : List Bool) : List α :=
  (rows.zip mask).filterMap (fun p => if p.2 then some p.1 else none)

/-- `Series.unique()` in pandas: the distinct values in order of first
occurrence. -/
def pandasUnique {α : Type u} [DecidableEq α] (l : List α) : List α :=
  l.foldl (fun acc x => if x ∈ acc then acc else acc ++ [x]) []

theorem maskFilter_map_pred {α : Type u} (p : α → Bool) :
    ∀ l : List α, maskFilter l (l.map p) = l.filter p := by
  intro l
  induction l with
  | nil => rfl
  | cons a t ih =>
    simp only [maskFilter, List.map_cons, List.zip_cons_cons, List.filterMap_cons,
      List.filter_cons] at *
    cases h : p a <;> simp [h, ih]

theorem pandasUnique_aux {α : Type u} [DecidableEq α] (y : α) :
    ∀ (l acc : List α),
      (y ∈ l.foldl (fun acc x => if x ∈ acc then acc else acc ++ [x]) acc ↔
        y ∈ acc ∨ y ∈ l) := by
  intro l
  induction l with
  | nil => simp
  | cons a t ih =>
    intro acc
    simp only [List.foldl_cons, ih]
    by_cases h : a ∈ acc
    · simp only [if_pos h, List.mem_cons]
      constructor
      · rintro (hy | hy)
        · exact Or.inl hy
        · exact Or.inr (Or.inr hy)
      · rintro (hy | rfl | hy)
        · exact Or.inl hy
        · exact Or.inl h
        · exact Or.inr hy
    · simp only [if_neg h, List.mem_append, List.mem_singleton, List.mem_cons]
      tauto

theorem mem_pandasUnique {α : Type u} [DecidableEq α] {y : α} {l : List α} :
    y ∈ pandasUnique l ↔ y ∈ l := by
  unfold pandasUnique
  rw [pandasUnique_aux]
  simp

namespace FilterGTE

/-- One row of the genotype-to-expression (GTE) table loaded by
`filter_gte_file.py` (columns `genotype_id`, `rnaseq_id`, `dataset`). -/
structure GTERow where
  genotype_id : String
  rnaseq_id : String
  dataset : String
deriving DecidableEq, Repr

/-- One row of the exclusion table (`se_df`), also in GTE format. -/
structure ExclRow where
  rnaseq_id : String
  dataset : String
deriving DecidableEq, Repr

/-- `remove_rnaseq_ids = set(se_df["rnaseq_id"])`; we keep the column as a
list, membership in it is membership in the set. -/
def remove_rnaseq_ids (se_df : List ExclRow) : List String :=
  se_df.map ExclRow.rnaseq_id

/-- `mask = [False if sample in remove_rnaseq_ids else True for sample in
gte_df["rnaseq_id"]]`. -/
def sampleMask (gte_df : List GTERow) (se_df : List ExclRow) : List Bool :=
  gte_df.map (fun r =>
    if (remove_rnaseq_ids se_df).contains r.rnaseq_id then false else true)

/-- `subset_gte_df = gte_df.loc[mask, :]`. -/
def subset_gte_df (gte_df : List GTERow) (se_df : List ExclRow) : List GTERow :=
  maskFilter gte_df (sampleMask gte_df se_df)

/-- One row of the sample-to-dataset output (columns renamed to
`sample`, `dataset`). -/
structure STDRow where
  sample : String
  dataset : String
deriving DecidableEq, Repr

/-- Per-row projection for `std_df = subset_gte_df.loc[:, ["rnaseq_id",
"dataset"]]` with `std_df.columns = ["sample", "dataset"]`. -/
def stdRow (r : GTERow) : STDRow :=
  ⟨r.rnaseq_id, r.dataset⟩

/-- The sample-to-dataset output table. -/
def std_df (sub : List GTERow) : List STDRow :=
  sub.map stdRow

/-- One row of the family-to-genotype output: `gte_fid_df.insert(0,
"family_id", 0)` puts a constant `0` before `genotype_id`. -/
structure FIDRow where
  family_id : Int
  genotype_id : String
deriving DecidableEq, Repr

/-- Per-row projection for `gte_fid_df = subset_gte_df.loc[:,
["genotype_id"]]` with the constant `family_id` column inserted. -/
def fidRow (r : GTERow) : FIDRow :=
  ⟨0, r.genotype_id⟩

/-- The family-to-genotype output table. -/
def gte_fid_df (sub : List GTERow) : List FIDRow :=
  sub.map fidRow

theorem subset_gte_df_eq_filter (gte_df : List GTERow) (se_df : List ExclRow) :
    subset_gte_df gte_df se_df =
      gte_df.filter
        (fun r => !((remove_rnaseq_ids se_df).contains r.rnaseq_id)) := by
  unfold subset_gte_df sampleMask
  rw [show (fun (r : GTERow) =>
        if (remove_rnaseq_ids se_df).contains r.rnaseq_id then false else true) =
      (fun r => !((remove_rnaseq_ids se_df).contains r.rnaseq_id)) from ?_]
  · exact maskFilter_map_pred _ gte_df
  · funext r
    cases h : (remove_rnaseq_ids se_df).contains r.rnaseq_id <;> simp [h]

theorem mem_subset_gte_df {r : GTERow} {gte_df : List GTERow}
    {se_df : List ExclRow} :
    r ∈ subset_gte_df gte_df se_df ↔
      r ∈ gte_df ∧ r.rnaseq_id ∉ remove_rnaseq_ids se_df := by
  rw [subset_gte_df_eq_filter, List.mem_filter]
  simp

/-- C1 (counterexample): the claimed equivalence fails for the
family-to-genotype output. In the GTE table
`[⟨"g", "a", "d"⟩, ⟨"g", "b", "d"⟩]` with exclusion set `{"a"}`, the first
row's `rnaseq_id` is in the exclusion set, yet its family-to-genotype
projection `⟨0, "g"⟩` still appears in that derived output, contributed by
the surviving second row with the same `genotype_id`. -/
theorem c1_counterexample :
    ¬ (∀ r ∈ ([⟨"g", "a", "d"⟩, ⟨"g", "b", "d"⟩] : List GTERow),
        (fidRow r ∈
            gte_fid_df (subset_gte_df [⟨"g", "a", "d"⟩, ⟨"g", "b", "d"⟩]
              [⟨"a", "d"⟩]) ↔
          r.rnaseq_id ∉ remove_rnaseq_ids [⟨"a", "d"⟩])) := by
  decide

/-- C1 (amended): for every row `r` of the loaded GTE table, `r` appears in
the filtered output iff its `rnaseq_id` is not in the exclusion set, and
likewise for `r`'s projection in the sample-to-dataset output; `r`'s
projection appears in the family-to-genotype output iff some GTE row with
`r`'s `genotype_id` has an `rnaseq_id` outside the exclusion set (so there
the right-to-left direction of the claim holds, but not the converse). -/
theorem c1_output_membership (gte_df : List GTERow) (se_df : List ExclRow)
    (r : GTERow) (hr : r ∈ gte_df) :
    (r ∈ subset_gte_df gte_df se_df ↔
        r.rnaseq_id ∉ remove_rnaseq_ids se_df) ∧
    (stdRow r ∈ std_df (subset_gte_df gte_df se_df) ↔
        r.rnaseq_id ∉ remove_rnaseq_ids se_df) ∧
    (fidRow r ∈ gte_fid_df (subset_gte_df gte_df se_df) ↔
        ∃ q ∈ gte_df, q.genotype_id = r.genotype_id ∧
          q.rnaseq_id ∉ remove_rnaseq_ids se_df) := by
  refine ⟨?_, ?_, ?_⟩
  · rw [mem_subset_gte_df]
    exact and_iff_right hr
  · constructor
    · rintro hm
      obtain ⟨q, hq, hqe⟩ := List.mem_map.mp hm
      have hne : q.rnaseq_id = r.rnaseq_id := congrArg STDRow.sample hqe
      have := (mem_subset_gte_df.mp hq).2
      rwa [hne] at this
    · intro hn
      exact List.mem_map_of_mem _ (mem_subset_gte_df.mpr ⟨hr, hn⟩)
  · constructor
    · rintro hm
      obtain ⟨q, hq, hqe⟩ := List.mem_map.mp hm
      obtain ⟨hqg, hqn⟩ := mem_subset_gte_df.mp hq
      exact ⟨q, hqg, congrArg FIDRow.genotype_id hqe, hqn⟩
    · rintro ⟨q, hqg, hqid, hqn⟩
      have : fidRow q = fidRow r := by
        unfold fidRow
        rw [hqid]
      rw [← this]
      exact List.mem_map_of_mem _ (mem_subset_gte_df.mpr ⟨hqg, hqn⟩)

/-- Witness for `c1_output_membership` at a concrete table. -/
theorem c1_output_membership_witness :
    (⟨"g1", "a", "d"⟩ : GTERow) ∈
        ([⟨"g1", "a", "d"⟩, ⟨"g2", "b", "d"⟩] : List GTERow) ∧
    ((⟨"g1", "a", "d"⟩ : GTERow) ∈
        subset_gte_df [⟨"g1", "a", "d"⟩, ⟨"g2", "b", "d"⟩] [⟨"b", "d"⟩] ↔
        ("a" : String) ∉ remove_rnaseq_ids [⟨"b", "d"⟩]) ∧
    (stdRow ⟨"g1", "a", "d"⟩ ∈
        std_df (subset_gte_df [⟨"g1", "a", "d"⟩, ⟨"g2", "b", "d"⟩]
          [⟨"b", "d"⟩]) ↔
        ("a" : String) ∉ remove_rnaseq_ids [⟨"b", "d"⟩]) ∧
    (fidRow ⟨"g1", "a", "d"⟩ ∈
        gte_fid_df (subset_gte_df [⟨"g1", "a", "d"⟩, ⟨"g2", "b", "d"⟩]
          [⟨"b", "d"⟩]) ↔
        ∃ q ∈ ([⟨"g1", "a", "d"⟩, ⟨"g2", "b", "d"⟩] : List GTERow),
          q.genotype_id = "g1" ∧ q.rnaseq_id ∉ remove_rnaseq_ids [⟨"b", "d"⟩]) := by
  refine ⟨by decide, ?_⟩
  exact c1_output_membership [⟨"g1", "a", "d"⟩, ⟨"g2", "b", "d"⟩] [⟨"b", "d"⟩]
    ⟨"g1", "a", "d"⟩ (by decide)

/-- C9: the filter writes every retained row with all of its cell values
unchanged and in the input's relative order (the filtered table is a
sublist of the loaded GTE table), and the three derived outputs have the
same number of rows. -/
theorem c9_retained_rows (gte_df : List GTERow) (se_df : List ExclRow) :
    (subset_gte_df gte_df se_df).Sublist gte_df ∧
    (std_df (subset_gte_df gte_df se_df)).length =
      (subset_gte_df gte_df se_df).length ∧
    (gte_fid_df (subset_gte_df gte_df se_df)).length =
      (subset_gte_df gte_df se_df).length := by
  refine ⟨?_, List.length_map _ _, List.length_map _ _⟩
  rw [subset_gte_df_eq_filter]
  exact List.filter_sublist _

end FilterGTE

namespace PrepareEqtl

/-- `trans_dict = {"SNP": "SNPName", "Gene": "ProbeName"}` applied to one
column name: `trans_dict[x] if x in trans_dict else x`. -/
def trans_dict (x : String) : String :=
  if x = "SNP" then "SNPName" else if x = "Gene" then "ProbeName" else x

/-- `eqtl_df.columns = [trans_dict[x] if x in trans_dict else x for x in
eqtl_df.columns]`. -/
def renameColumns (cols : List String) : List String :=
  cols.map trans_dict

/-- `self.dataset_order` from `prepare_bios_eqtl_file.py`. -/
def dataset_order : List String :=
  ["RS", "LL", "LLS_660Q", "NTR_AFFY", "LLS_OmniExpr", "CODAM", "PAN",
   "NTR_GONL", "GONL"]

/-- `self.dataset_sizes` from `prepare_bios_eqtl_file.py`. -/
def dataset_sizes : List Int :=
  [765, 733, 400, 341, 255, 184, 169, 138, 74]

/-- `np.dot` of two equally long vectors. -/
def dotInt (xs ys : List Int) : Int :=
  (List.zipWith (fun a b => a * b) xs ys).sum

/-- `snps_df.sum(axis=1)` for one row: the sum of the row's value in every
column of the SNP-dataset presence matrix, in the file's column order
`cols`; `v` gives the row's value in a named column. -/
def nDatasets (cols : List String) (v : String → Int) : Int :=
  (cols.map v).sum

/-- `np.dot(snps_df.loc[:, self.dataset_order].to_numpy(),
self.dataset_sizes)` for one row: the presence values are re-selected in
the fixed `dataset_order` and dotted with `dataset_sizes`. -/
def nSamples (v : String → Int) : Int :=
  dotInt (dataset_order.map v) dataset_sizes

/-- The two derived columns attached to a SNP row. -/
structure SNPInfo where
  nDatasetsVal : Int
  nSamplesVal : Int
deriving DecidableEq, Repr

/-- The SNP table after preprocessing: each row keeps its index label and
gains the `"N datasets"` and `"N samples"` columns. -/
def prepSnps (cols : List String) (snps_df : List (String × (String → Int))) :
    List (String × SNPInfo) :=
  snps_df.map (fun s => (s.1, ⟨nDatasets cols s.2, nSamples s.2⟩))

/-- One row of the eQTL table after the column rename: the `"SNPName"` and
`"ProbeName"` key columns plus the remaining cell values. -/
structure EQTLRow where
  snpName : String
  probeName : String
  rest : List String
deriving DecidableEq, Repr

/-- The SNP-table rows whose index label equals `k`. -/
def matchesFor (k : String) (snps : List (String × SNPInfo)) :
    List (String × SNPInfo) :=
  snps.filter (fun s => s.1 = k)

/-- `top_eqtl_df.merge(snps_df, left_on="SNPName", right_index=True,
how="left")` followed by `top_eqtl_df["index"] = top_eqtl_df.index`.
Each output row carries the left frame's index (pandas keeps the left
RangeIndex when merging on `right_index=True`), the eQTL row, and the
matched SNP columns (`none` encodes the NaN fill when no index label
matches). An eQTL row with several matching index labels is repeated once
per match, as pandas does. -/
def mergedEqtl (eqtl_df : List EQTLRow) (snps : List (String × SNPInfo)) :
    List (Nat × EQTLRow × Option SNPInfo) :=
  eqtl_df.enum.flatMap (fun ie =>
    match matchesFor ie.2.snpName snps with
    | [] => [(ie.1, ie.2, none)]
    | ms => ms.map (fun s => (ie.1, ie.2, some s.2)))

theorem matchesFor_length_le_one {snps : List (String × SNPInfo)}
    (h : (snps.map Prod.fst).Nodup) (k : String) :
    (matchesFor k snps).length ≤ 1 := by
  induction snps with
  | nil => simp [matchesFor]
  | cons a t ih =>
    rw [List.map_cons, List.nodup_cons] at h
    unfold matchesFor at *
    rw [List.filter_cons]
    by_cases ha : a.1 = k
    · have : t.filter (fun s => s.1 = k) = [] := by
        rw [List.filter_eq_nil_iff]
        intro s hs hsk
        have hsk' : s.1 = k := by simpa using hsk
        exact h.1 (ha ▸ hsk' ▸ List.mem_map_of_mem Prod.fst hs)
      simp [ha, this]
    · simpa [ha] using ih h.2

theorem matchesFor_nil_or_singleton {snps : List (String × SNPInfo)}
    (h : (snps.map Prod.fst).Nodup) (k : String) :
    matchesFor k snps = [] ∨ ∃ s, matchesFor k snps = [s] := by
  have := matchesFor_length_le_one h k
  match hm : matchesFor k snps with
  | [] => exact Or.inl rfl
  | [s] => exact Or.inr ⟨s, rfl⟩
  | s :: s2 :: t =>
    rw [hm] at this
    simp at this

theorem mem_matchesFor {k : String} {snps : List (String × SNPInfo)}
    {s : String × SNPInfo} :
    s ∈ matchesFor k snps ↔ s ∈ snps ∧ s.1 = k := by
  unfold matchesFor
  rw [List.mem_filter]
  simp

theorem flatMap_eq_map_of_singleton {α : Type u} {β : Type v} (f : α → List β)
    (g : α → β) :
    ∀ l : List α, (∀ a ∈ l, f a = [g a]) → l.flatMap f = l.map g := by
  intro l
  induction l with
  | nil => intro _; rfl
  | cons a t ih =>
    intro hl
    rw [List.flatMap_cons, List.map_cons, hl a (List.mem_cons_self a t),
      ih (fun x hx => hl x (List.mem_cons_of_mem a hx))]
    rfl

theorem mergedEqtl_eq_map {eqtl_df : List EQTLRow}
    {snps : List (String × SNPInfo)} (h : (snps.map Prod.fst).Nodup) :
    mergedEqtl eqtl_df snps =
      eqtl_df.enum.map (fun ie =>
        (ie.1, ie.2, ((matchesFor ie.2.snpName snps).head?).map Prod.snd)) := by
  unfold mergedEqtl
  apply flatMap_eq_map_of_singleton
  intro ie _
  rcases matchesFor_nil_or_singleton h ie.2.snpName with hm | ⟨s, hm⟩ <;>
    rw [hm] <;> rfl

/-- C2: with unique SNP index labels (the spec's tabular invariant), the
left-join output contains every row of the input eQTL table, and each
output row's `"N datasets"`/`"N samples"` cells come from the SNP-table
row whose index label equals the row's `"SNPName"` when one exists, and
are the NaN fill (`none`) otherwise. -/
theorem c2_left_join (cols : List String) (eqtl_df : List EQTLRow)
    (snps_df : List (String × (String → Int)))
    (h : (snps_df.map Prod.fst).Nodup) :
    (∀ e ∈ eqtl_df, ∃ i c,
        (i, e, c) ∈ mergedEqtl eqtl_df (prepSnps cols snps_df)) ∧
    (∀ t ∈ mergedEqtl eqtl_df (prepSnps cols snps_df),
        t.2.1 ∈ eqtl_df ∧
        ((∃ s ∈ prepSnps cols snps_df,
            s.1 = t.2.1.snpName ∧ t.2.2 = some s.2) ∨
          ((∀ s ∈ prepSnps cols snps_df, s.1 ≠ t.2.1.snpName) ∧
            t.2.2 = none))) := by
  have hfst : (prepSnps cols snps_df).map Prod.fst = snps_df.map Prod.fst := by
    unfold prepSnps
    rw [List.map_map]
    rfl
  have hnodup : ((prepSnps cols snps_df).map Prod.fst).Nodup := by
    rw [hfst]; exact h
  rw [mergedEqtl_eq_map hnodup]
  constructor
  · intro e he
    obtain ⟨n, hn, hne⟩ := List.mem_iff_getElem.mp he
    have hie : (n, e) ∈ eqtl_df.enum := by
      rw [List.mem_iff_getElem]
      refine ⟨n, by simpa using hn, ?_⟩
      rw [List.getElem_enum, hne]
    exact ⟨n,
      ((matchesFor e.snpName (prepSnps cols snps_df)).head?).map Prod.snd,
      List.mem_map_of_mem _ hie⟩
  · intro t ht
    obtain ⟨ie, hie, hte⟩ := List.mem_map.mp ht
    have he2 : t.2.1 = ie.2 := by rw [← hte]
    have hmem : ie.2 ∈ eqtl_df := by
      obtain ⟨n, hn, hne⟩ := List.mem_iff_getElem.mp hie
      have hn2 : n < eqtl_df.length := by simpa using hn
      rw [List.getElem_enum] at hne
      have hge : eqtl_df[n] = ie.2 := congrArg Prod.snd hne
      exact hge ▸ List.getElem_mem hn2
    refine ⟨he2 ▸ hmem, ?_⟩
    rcases matchesFor_nil_or_singleton hnodup ie.2.snpName with hm | ⟨s, hm⟩
    · refine Or.inr ⟨?_, ?_⟩
      · intro s hs hsk
        have : s ∈ matchesFor ie.2.snpName (prepSnps cols snps_df) :=
          mem_matchesFor.mpr ⟨hs, he2 ▸ hsk⟩
        rw [hm] at this
        exact absurd this (List.not_mem_nil s)
      · rw [← hte]
        simp [hm]
    · have hsmem := mem_matchesFor.mp (hm ▸ List.mem_cons_self s [])
      refine Or.inl ⟨s, hsmem.1, he2 ▸ hsmem.2, ?_⟩
      rw [← hte]
      simp [hm]

/-- Witness for `c2_left_join` at a concrete pair of tables. -/
theorem c2_left_join_witness :
    (([("rs1", fun c => if c = "RS" then 1 else 0)] :
        List (String × (String → Int))).map Prod.fst).Nodup ∧
    ((∀ e ∈ ([⟨"rs1", "g1", ["0.01"]⟩, ⟨"rs9", "g2", ["0.02"]⟩] :
          List EQTLRow), ∃ i c,
        (i, e, c) ∈ mergedEqtl [⟨"rs1", "g1", ["0.01"]⟩, ⟨"rs9", "g2", ["0.02"]⟩]
          (prepSnps dataset_order
            [("rs1", fun c => if c = "RS" then 1 else 0)])) ∧
    (∀ t ∈ mergedEqtl [⟨"rs1", "g1", ["0.01"]⟩, ⟨"rs9", "g2", ["0.02"]⟩]
        (prepSnps dataset_order
          [("rs1", fun c => if c = "RS" then 1 else 0)]),
        t.2.1 ∈ ([⟨"rs1", "g1", ["0.01"]⟩, ⟨"rs9", "g2", ["0.02"]⟩] :
          List EQTLRow) ∧
        ((∃ s ∈ prepSnps dataset_order
            [("rs1", fun c => if c = "RS" then 1 else 0)],
            s.1 = t.2.1.snpName ∧ t.2.2 = some s.2) ∨
          ((∀ s ∈ prepSnps dataset_order
              [("rs1", fun c => if c = "RS" then 1 else 0)],
              s.1 ≠ t.2.1.snpName) ∧
            t.2.2 = none)))) :=
  ⟨by simp,
   c2_left_join dataset_order [⟨"rs1", "g1", ["0.01"]⟩, ⟨"rs9", "g2", ["0.02"]⟩]
     [("rs1", fun c => if c = "RS" then 1 else 0)] (by simp)⟩

/-- C10: with unique SNP-table index labels, the joined output preserves
the row order of the input eQTL table, and the added `"index"` column (the
left frame's RangeIndex label carried through the merge) equals each row's
zero-based position. -/
theorem c10_merge_order (cols : List String) (eqtl_df : List EQTLRow)
    (snps_df : List (String × (String → Int)))
    (h : (snps_df.map Prod.fst).Nodup) :
    (mergedEqtl eqtl_df (prepSnps cols snps_df)).map (fun t => t.2.1) =
      eqtl_df ∧
    ∀ j (hj : j < (mergedEqtl eqtl_df (prepSnps cols snps_df)).length),
      ((mergedEqtl eqtl_df (prepSnps cols snps_df)).get ⟨j, hj⟩).1 = j := by
  have hfst : (prepSnps cols snps_df).map Prod.fst = snps_df.map Prod.fst := by
    unfold prepSnps
    rw [List.map_map]
    rfl
  have hnodup : ((prepSnps cols snps_df).map Prod.fst).Nodup := by
    rw [hfst]; exact h
  rw [mergedEqtl_eq_map hnodup]
  constructor
  · rw [List.map_map]
    exact List.enum_map_snd eqtl_df
  · intro j hj
    rw [List.get_eq_getElem, List.getElem_map, List.getElem_enum]

/-- Witness for `c10_merge_order` at a concrete pair of tables. -/
theorem c10_merge_order_witness :
    (([("rs1", fun c => if c = "LL" then 1 else 0)] :
        List (String × (String → Int))).map Prod.fst).Nodup ∧
    ((mergedEqtl [⟨"rs9", "g1", []⟩, ⟨"rs1", "g2", []⟩]
        (prepSnps dataset_order
          [("rs1", fun c => if c = "LL" then 1 else 0)])).map (fun t => t.2.1) =
      ([⟨"rs9", "g1", []⟩, ⟨"rs1", "g2", []⟩] : List EQTLRow) ∧
    ∀ j (hj : j < (mergedEqtl [⟨"rs9", "g1", []⟩, ⟨"rs1", "g2", []⟩]
        (prepSnps dataset_order
          [("rs1", fun c => if c = "LL" then 1 else 0)])).length),
      ((mergedEqtl [⟨"rs9", "g1", []⟩, ⟨"rs1", "g2", []⟩]
        (prepSnps dataset_order
          [("rs1", fun c => if c = "LL" then 1 else 0)])).get ⟨j, hj⟩).1 = j) :=
  ⟨by simp,
   c10_merge_order dataset_order [⟨"rs9", "g1", []⟩, ⟨"rs1", "g2", []⟩]
     [("rs1", fun c => if c = "LL" then 1 else 0)] (by simp)⟩

/-- C3: for a SNP row whose presence columns are exactly the nine cohorts
(in any file order), the computed `"N datasets"` equals the row sum of the
presence columns and the computed `"N samples"` equals the dot product of
the presence values, taken in the fixed cohort order `dataset_order`, with
the fixed cohort-size vector `dataset_sizes`. -/
theorem c3_count_arithmetic (cols : List String) (v : String → Int)
    (hperm : cols.Perm dataset_order) :
    nDatasets cols v = (dataset_order.map v).sum ∧
    nSamples v = dotInt (dataset_order.map v) dataset_sizes :=
  ⟨(hperm.map v).sum_eq, rfl⟩

/-- Witness for `c3_count_arithmetic`: the file's columns in reversed
order, a SNP present in `RS` and `CODAM` only. -/
theorem c3_count_arithmetic_witness :
    (dataset_order.reverse).Perm dataset_order ∧
    (nDatasets dataset_order.reverse
        (fun c => if c = "RS" then 1 else if c = "CODAM" then 1 else 0) =
      (dataset_order.map
        (fun c => if c = "RS" then 1 else if c = "CODAM" then 1 else 0)).sum ∧
    nSamples (fun c => if c = "RS" then 1 else if c = "CODAM" then 1 else 0) =
      dotInt (dataset_order.map
        (fun c => if c = "RS" then 1 else if c = "CODAM" then 1 else 0))
        dataset_sizes) :=
  ⟨List.reverse_perm dataset_order,
   c3_count_arithmetic dataset_order.reverse
     (fun c => if c = "RS" then 1 else if c = "CODAM" then 1 else 0)
     (List.reverse_perm dataset_order)⟩

/-- C5: the rename maps `"SNP"` to `"SNPName"` and `"Gene"` to
`"ProbeName"`, leaves every other column name unchanged, and keeps the
number and relative order of the columns. -/
theorem c5_rename (cols : List String) (i : Nat) (hi : i < cols.length) :
    (renameColumns cols).length = cols.length ∧
    (renameColumns cols)[i]? =
      some (if cols.get ⟨i, hi⟩ = "SNP" then "SNPName"
        else if cols.get ⟨i, hi⟩ = "Gene" then "ProbeName"
        else cols.get ⟨i, hi⟩) := by
  refine ⟨List.length_map _ _, ?_⟩
  rw [renameColumns, List.getElem?_map, List.getElem?_eq_getElem hi]
  rfl

/-- Witness for `c5_rename` on the column list `["SNP", "Gene", "PValue"]`
at position 1. -/
theorem c5_rename_witness :
    1 < (["SNP", "Gene", "PValue"] : List String).length ∧
    ((renameColumns ["SNP", "Gene", "PValue"]).length =
      (["SNP", "Gene", "PValue"] : List String).length ∧
    (renameColumns ["SNP", "Gene", "PValue"])[1]? =
      some (if (["SNP", "Gene", "PValue"] : List String).get ⟨1, by decide⟩ =
          "SNP" then "SNPName"
        else if (["SNP", "Gene", "PValue"] : List String).get ⟨1, by decide⟩ =
          "Gene" then "ProbeName"
        else (["SNP", "Gene", "PValue"] : List String).get ⟨1, by decide⟩)) :=
  ⟨by decide, c5_rename ["SNP", "Gene", "PValue"] 1 (by decide)⟩

end PrepareEqtl

/-- A `.gz` output file as written by `save_file` via
`DataFrame.to_csv(..., compression='gzip')`. Modelled from the gzip member
format (RFC 1952) as produced by Python's `gzip` module: the member header
carries an `MTIME` word that the library fills with the current clock when
none is supplied, and the deflate body losslessly encodes the text, kept
here decompressed as `payload` lines. Two gzip files are byte-identical
iff both fields agree. -/
structure GzipFile where
  mtime : Nat
  payload : List String
deriving DecidableEq, Repr

/-- TSV line for one filtered GTE row (`sep="\t"`). -/
def serializeGteRow (r : FilterGTE.GTERow) : String :=
  r.genotype_id ++ "\t" ++ r.rnaseq_id ++ "\t" ++ r.dataset

/-- TSV line for one sample-to-dataset row. -/
def serializeStdRow (r : FilterGTE.STDRow) : String :=
  r.sample ++ "\t" ++ r.dataset

/-- TSV line for one family-to-genotype row. -/
def serializeFidRow (r : FilterGTE.FIDRow) : String :=
  toString r.family_id ++ "\t" ++ r.genotype_id

/-- One run of `filter_gte_file.py` at clock time `now`: the two
gzip-compressed outputs (`GenotypeToExpression.txt.gz` and
`SampleToDataset.txt.gz`, written with `header=True, index=False`) and the
plain-text `FamilyToGenotype.txt` (written with `header=False,
index=False`). -/
def runFilterScript (now : Nat) (gte_df : List FilterGTE.GTERow)
    (se_df : List FilterGTE.ExclRow) :
    GzipFile × GzipFile × List String :=
  let sub := FilterGTE.subset_gte_df gte_df se_df
  (⟨now, "genotype_id\trnaseq_id\tdataset" :: sub.map serializeGteRow⟩,
   ⟨now, "sample\tdataset" :: (FilterGTE.std_df sub).map serializeStdRow⟩,
   (FilterGTE.gte_fid_df sub).map serializeFidRow)

/-- The `"N datasets"` and `"N samples"` cells of one joined row; pandas
writes the NaN fill of an unmatched row as empty cells. -/
def serializeInfo : Option PrepareEqtl.SNPInfo → String
  | none => "\t"
  | some i => toString i.nDatasetsVal ++ "\t" ++ toString i.nSamplesVal

/-- TSV line for one row of the joined eQTL output (`index=False`: the
RangeIndex is not written, but the appended `"index"` column is the last
cell). -/
def serializeEqtlRow (t : Nat × PrepareEqtl.EQTLRow ×
    Option PrepareEqtl.SNPInfo) : String :=
  String.intercalate "\t" ([t.2.1.snpName, t.2.1.probeName] ++ t.2.1.rest) ++
    "\t" ++ serializeInfo t.2.2 ++ "\t" ++ toString t.1

/-- One run of `prepare_bios_eqtl_file.py` at clock time `now`, writing
`BIOS_eQTLProbesFDR0.05-ProbeLevel.txt.gz` with `header=True,
index=False`; `restCols` are the names of the non-key eQTL columns. -/
def runEqtlScript (now : Nat) (restCols cols : List String)
    (eqtl_df : List PrepareEqtl.EQTLRow)
    (snps_df : List (String × (String → Int))) : GzipFile :=
  ⟨now,
   String.intercalate "\t" (["SNPName", "ProbeName"] ++ restCols ++
     ["N datasets", "N samples", "index"]) ::
   (PrepareEqtl.mergedEqtl eqtl_df (PrepareEqtl.prepSnps cols snps_df)).map
     serializeEqtlRow⟩

/-- C4 (counterexample): two runs of the GTE filter script on the same
(empty) inputs at clock seconds 0 and 1 write gzip files that differ in
the header's `MTIME` word, so the tabular output files are not
byte-identical. -/
theorem c4_counterexample :
    (runFilterScript 0 [] []).1 ≠ (runFilterScript 1 [] []).1 := by
  decide

/-- C4 (amended): re-running any script on the same inputs produces
outputs whose tabular content is identical: the decompressed payload of
every gzip output and the full bytes of the uncompressed
`FamilyToGenotype.txt` do not depend on the run; only the gzip header
timestamp varies between runs. -/
theorem c4_content_deterministic (t1 t2 : Nat)
    (gte_df : List FilterGTE.GTERow) (se_df : List FilterGTE.ExclRow)
    (restCols cols : List String) (eqtl_df : List PrepareEqtl.EQTLRow)
    (snps_df : List (String × (String → Int))) :
    (runFilterScript t1 gte_df se_df).1.payload =
      (runFilterScript t2 gte_df se_df).1.payload ∧
    (runFilterScript t1 gte_df se_df).2.1.payload =
      (runFilterScript t2 gte_df se_df).2.1.payload ∧
    (runFilterScript t1 gte_df se_df).2.2 =
      (runFilterScript t2 gte_df se_df).2.2 ∧
    (runEqtlScript t1 restCols cols eqtl_df snps_df).payload =
      (runEqtlScript t2 restCols cols eqtl_df snps_df).payload :=
  ⟨rfl, rfl, rfl, rfl⟩

namespace Lineplot

/-- One row of the concatenated long-form table `df_m` built by
`overview_lineplot.py` (after `melt` the measured-variable column is named
`variable`, modelled as `varName`). -/
structure MeltRow where
  index : Int
  covariate : String
  component : String
  varName : String
  value : Int
deriving DecidableEq, Repr

/-- `needle` occurs as a contiguous run inside `hay` (Python's
`needle in hay` on strings). -/
def listInfixB {α : Type u} [BEq α] (needle hay : List α) : Bool :=
  hay.tails.any (fun t => needle.isPrefixOf t)

/-- `"Likelihood" in variable`. -/
def likelihoodNamed (v : String) : Bool :=
  listInfixB "Likelihood".data v.data

/-- `variable.replace(" ", "_").lower()`. -/
def fileName (v : String) : String :=
  (v.replace " " "_").toLower

/-- `subset_m`: the rows of the long-form table for one measured variable,
with the special-case exclusion of the first iteration for `"Overlap %"`. -/
def subsetFor (v : String) (df_m : List MeltRow) : List MeltRow :=
  let s := df_m.filter (fun r => r.varName = v)
  if v = "Overlap %" then s.filter (fun r => r.index ≠ 1) else s

/-- One call of `self.lineplot`: the data drawn, the y column used, the
y-axis label and the output file name (`.png` appended on save). -/
structure PlotSpec where
  data : List MeltRow
  yvar : String
  ylabel : String
  filename : String
deriving DecidableEq, Repr

/-- The plots drawn for one measured variable: the plain plot always, plus
the log10-scaled variant when the variable name contains `"Likelihood"`. -/
def plotsFor (df_m : List MeltRow) (v : String) : List PlotSpec :=
  [⟨subsetFor v df_m, "value", v, fileName v⟩] ++
    (if likelihoodNamed v then
      [⟨subsetFor v df_m, "log10 value", "log10 " ++ v,
        "log10_" ++ fileName v⟩]
    else [])

/-- The plotting loop over `df_m["variable"].unique()`, each plot tagged
with the variable it was drawn for. -/
def producedPlots (df_m : List MeltRow) : List (String × PlotSpec) :=
  (pandasUnique (df_m.map MeltRow.varName)).flatMap
    (fun v => (plotsFor df_m v).map (fun p => (v, p)))

/-- C7: for every measured variable present in the concatenated long-form
table, a log10-scaled line plot for it, written to a file name prefixed
with `"log10_"`, is produced iff the variable's name contains
`"Likelihood"`. -/
theorem c7_log10_variant (df_m : List MeltRow) (v : String)
    (hv : v ∈ df_m.map MeltRow.varName) :
    ((v, ⟨subsetFor v df_m, "log10 value", "log10 " ++ v,
        "log10_" ++ fileName v⟩) ∈ producedPlots df_m) ↔
      likelihoodNamed v = true := by
  unfold producedPlots
  rw [List.mem_flatMap]
  constructor
  · rintro ⟨w, _, hmem⟩
    obtain ⟨q, hq, hqe⟩ := List.mem_map.mp hmem
    obtain ⟨hw, hqp⟩ := Prod.mk.injEq .. ▸ hqe
    subst hw
    rw [hqp] at hq
    unfold plotsFor at hq
    rcases List.mem_append.mp hq with hbase | hvar
    · have := List.mem_singleton.mp hbase
      have hy : ("log10 value" : String) = "value" := congrArg PlotSpec.yvar this
      exact absurd hy (by decide)
    · by_contra hlk
      rw [Bool.not_eq_true] at hlk
      rw [hlk] at hvar
      exact absurd hvar (List.not_mem_nil _)
  · intro hlk
    refine ⟨v, mem_pandasUnique.mpr hv, List.mem_map_of_mem _ ?_⟩
    unfold plotsFor
    rw [hlk]
    exact List.mem_append_right _ (List.mem_singleton.mpr rfl)

/-- Witness for `c7_log10_variant` on a one-row table for the variable
`"Log Likelihood"`. -/
theorem c7_log10_variant_witness :
    ("Log Likelihood" : String) ∈
      ([⟨1, "cov", "PIC1", "Log Likelihood", 3⟩] :
        List MeltRow).map MeltRow.varName ∧
    ((("Log Likelihood",
        ⟨subsetFor "Log Likelihood" [⟨1, "cov", "PIC1", "Log Likelihood", 3⟩],
         "log10 value", "log10 " ++ "Log Likelihood",
         "log10_" ++ fileName "Log Likelihood"⟩) ∈
      producedPlots [⟨1, "cov", "PIC1", "Log Likelihood", 3⟩]) ↔
      likelihoodNamed "Log Likelihood" = true) :=
  ⟨by decide,
   c7_log10_variant [⟨1, "cov", "PIC1", "Log Likelihood", 3⟩]
     "Log Likelihood" (by decide)⟩

end Lineplot

namespace Visualiser

/-- One row of the ieQTL design matrix `X` (columns 0..3: intercept,
genotype, covariate, interaction). -/
structure Row4 where
  intercept : ℚ
  genotype : ℚ
  covariate : ℚ
  interaction : ℚ
deriving DecidableEq, Repr

/-- Modelled from the spec: `calc_vertex_xpos` lives in `src.statistics`,
which is not part of this snapshot; the spec describes it as the x-position
of the vertex of the quadratic implied by the two model coefficients, so
for coefficients `a` and `b` it is `-b / (2 * a)`. -/
def calc_vertex_xpos (a b : ℚ) : ℚ :=
  -b / (2 * a)

/-- The optimized covariate column written into `X_opt[:, 2]`: the given
array restricted by the model's mask (`ocf = ocf[ieqtl.mask]`) when an
array is supplied, otherwise the scalar vertex x-position broadcast over
the `n` rows. -/
def deriveOcf (ocf : Option (List ℚ)) (mask : List Bool) (coefA coefB : ℚ)
    (n : Nat) : List ℚ :=
  match ocf with
  | none => List.replicate n (calc_vertex_xpos coefA coefB)
  | some arr => maskFilter arr mask

/-- `X_opt = np.copy(X_start); X_opt[:, 2] = ocf;
X_opt[:, 3] = X_opt[:, 1] * X_opt[:, 2]`. -/
def buildXopt (X : List Row4) (ocfCol : List ℚ) : List Row4 :=
  (X.zip ocfCol).map (fun p =>
    ⟨p.1.intercept, p.1.genotype, p.2, p.1.genotype * p.2⟩)

/-- The matrix-rebuilding portion of `Visualiser.plot`: returns the
optimized design matrix and the recomputed optimized r-squared
(`None` when `ocf` was not given, i.e. `solo_optimized`). The external
regression helpers `fit_and_predict`/`calc_pearsonr` are abstracted as
the parameter `pearson`. -/
def plotCore (pearson : List Row4 → List ℚ → ℚ) (X : List Row4)
    (y : List ℚ) (mask : List Bool) (coefA coefB : ℚ)
    (ocf : Option (List ℚ)) : List Row4 × Option ℚ :=
  let ocfCol := deriveOcf ocf mask coefA coefB X.length
  let Xopt := buildXopt X ocfCol
  (Xopt,
   match ocf with
   | none => none
   | some _ => some (pearson Xopt y * pearson Xopt y))

theorem map_zip_proj_fst {α : Type u} {β γ : Type v} (g : α → γ) :
    ∀ (l1 : List α) (l2 : List β), l1.length ≤ l2.length →
      ((l1.zip l2).map (fun p => g p.1)) = l1.map g := by
  intro l1 l2 h
  have he : ((l1.zip l2).map (fun p => g p.1)) =
      ((l1.zip l2).map Prod.fst).map g := by
    rw [List.map_map]
    rfl
  rw [he, List.map_fst_zip _ _ h]

theorem map_zip_eq_zipWith {α β γ : Type u} (f : α → β → γ) :
    ∀ (l1 : List α) (l2 : List β),
      (l1.zip l2).map (fun p => f p.1 p.2) = List.zipWith f l1 l2
  | [], l2 => by simp
  | a :: t1, [] => by simp
  | a :: t1, b :: t2 => by
    simp only [List.zip_cons_cons, List.map_cons, List.zipWith_cons_cons]
    rw [map_zip_eq_zipWith f t1 t2]

/-- C6: in the rebuilt design matrix the intercept and genotype columns
equal those of the starting matrix, the covariate column equals the
derived optimized covariate column (array restricted by the mask, or the
broadcast vertex x-position), the interaction column is the elementwise
product of the genotype and new covariate columns, and the optimized
explained variance is recomputed iff the covariate array was provided. -/
theorem c6_rebuild (pearson : List Row4 → List ℚ → ℚ) (X : List Row4)
    (y : List ℚ) (mask : List Bool) (coefA coefB : ℚ)
    (ocf : Option (List ℚ))
    (hlen : (deriveOcf ocf mask coefA coefB X.length).length = X.length) :
    ((plotCore pearson X y mask coefA coefB ocf).1.map Row4.intercept =
      X.map Row4.intercept) ∧
    ((plotCore pearson X y mask coefA coefB ocf).1.map Row4.genotype =
      X.map Row4.genotype) ∧
    ((plotCore pearson X y mask coefA coefB ocf).1.map Row4.covariate =
      deriveOcf ocf mask coefA coefB X.length) ∧
    ((plotCore pearson X y mask coefA coefB ocf).1.map Row4.interaction =
      List.zipWith (fun g c => g * c)
        ((plotCore pearson X y mask coefA coefB ocf).1.map Row4.genotype)
        ((plotCore pearson X y mask coefA coefB ocf).1.map Row4.covariate)) ∧
    ((plotCore pearson X y mask coefA coefB ocf).2.isSome ↔ ocf.isSome) := by
  have hfst : (plotCore pearson X y mask coefA coefB ocf).1 =
      buildXopt X (deriveOcf ocf mask coefA coefB X.length) := by
    cases ocf <;> rfl
  have hle : X.length ≤ (deriveOcf ocf mask coefA coefB X.length).length :=
    le_of_eq hlen.symm
  have h1 : (plotCore pearson X y mask coefA coefB ocf).1.map Row4.intercept =
      X.map Row4.intercept := by
    rw [hfst, buildXopt, List.map_map]
    exact map_zip_proj_fst Row4.intercept X _ hle
  have h2 : (plotCore pearson X y mask coefA coefB ocf).1.map Row4.genotype =
      X.map Row4.genotype := by
    rw [hfst, buildXopt, List.map_map]
    exact map_zip_proj_fst Row4.genotype X _ hle
  have h3 : (plotCore pearson X y mask coefA coefB ocf).1.map Row4.covariate =
      deriveOcf ocf mask coefA coefB X.length := by
    rw [hfst, buildXopt, List.map_map]
    have he : ((X.zip (deriveOcf ocf mask coefA coefB X.length)).map
        (Row4.covariate ∘ fun p : Row4 × ℚ =>
          Row4.mk p.1.intercept p.1.genotype p.2 (p.1.genotype * p.2))) =
        (X.zip (deriveOcf ocf mask coefA coefB X.length)).map Prod.snd := rfl
    rw [he, List.map_snd_zip _ _ (le_of_eq hlen)]
  refine ⟨h1, h2, h3, ?_, ?_⟩
  · rw [h2, h3, hfst, buildXopt, List.map_map]
    have he : ((X.zip (deriveOcf ocf mask coefA coefB X.length)).map
        (Row4.interaction ∘ fun p : Row4 × ℚ =>
          Row4.mk p.1.intercept p.1.genotype p.2 (p.1.genotype * p.2))) =
        (X.zip (deriveOcf ocf mask coefA coefB X.length)).map
          (fun p => p.1.genotype * p.2) := rfl
    rw [he, map_zip_eq_zipWith (fun r c => r.genotype * c) X _,
      ← List.zipWith_map_left X _ Row4.genotype (fun g c => g * c)]
  · cases ocf <;> simp [plotCore]

/-- Witness for `c6_rebuild`: one design-matrix row, a provided
two-element covariate array restricted by the mask `[true, false]`. -/
theorem c6_rebuild_witness :
    (deriveOcf (some [7, 8]) [true, false] 1 4
        ([(⟨1, 2, 5, 10⟩ : Row4)]).length).length =
      ([(⟨1, 2, 5, 10⟩ : Row4)]).length ∧
    (((plotCore (fun _ _ => 0) [⟨1, 2, 5, 10⟩] [3] [true, false] 1 4
        (some [7, 8])).1.map Row4.intercept =
      ([(⟨1, 2, 5, 10⟩ : Row4)]).map Row4.intercept) ∧
    ((plotCore (fun _ _ => 0) [⟨1, 2, 5, 10⟩] [3] [true, false] 1 4
        (some [7, 8])).1.map Row4.genotype =
      ([(⟨1, 2, 5, 10⟩ : Row4)]).map Row4.genotype) ∧
    ((plotCore (fun _ _ => 0) [⟨1, 2, 5, 10⟩] [3] [true, false] 1 4
        (some [7, 8])).1.map Row4.covariate =
      deriveOcf (some [7, 8]) [true, false] 1 4
        ([(⟨1, 2, 5, 10⟩ : Row4)]).length) ∧
    ((plotCore (fun _ _ => 0) [⟨1, 2, 5, 10⟩] [3] [true, false] 1 4
        (some [7, 8])).1.map Row4.interaction =
      List.zipWith (fun g c => g * c)
        ((plotCore (fun _ _ => 0) [⟨1, 2, 5, 10⟩] [3] [true, false] 1 4
          (some [7, 8])).1.map Row4.genotype)
        ((plotCore (fun _ _ => 0) [⟨1, 2, 5, 10⟩] [3] [true, false] 1 4
          (some [7, 8])).1.map Row4.covariate)) ∧
    ((plotCore (fun _ _ => 0) [⟨1, 2, 5, 10⟩] [3] [true, false] 1 4
        (some [7, 8])).2.isSome ↔ (some ([7, 8] : List ℚ)).isSome)) :=
  ⟨by decide,
   c6_rebuild (fun _ _ => 0) [⟨1, 2, 5, 10⟩] [3] [true, false] 1 4
     (some [7, 8]) (by decide)⟩

end Visualiser

namespace Visualiser

/-- One row of the plot dataframe passed to `Visualiser.inter_plot`
(`x="covariate"`, `y="expression"`, `group="group"`, the group being the
rounded genotype). -/
structure IRow where
  covariate : ℚ
  expression : ℚ
  group : ℚ
deriving DecidableEq, Repr

/-- What `inter_plot` draws on the axis, in drawing order. -/
inductive PlotAction where
  | regression (g : ℚ)
  | groupAnnotation (g : ℚ) (n : Nat)
  | rsquaredAnnotation (v : ℚ)
  | fdrAnnotation (v : ℚ)
  | setTitle (s : String)
  | setYlabel (s : String)
  | setXlabel (s : String)
deriving DecidableEq, Repr

/-- `Visualiser.inter_plot` as the list of drawing actions it performs:
`unique_groups = df[group].unique()`; when
`len(set(unique_groups).symmetric_difference({0, 1, 2})) > 0` it returns
at once with nothing drawn and nothing printed; otherwise it draws, per
group in first-occurrence order, a regression (only when the subset has
more than one row) and the group annotation, then the optional r-squared
and FDR annotations, then the title and axis labels. -/
def inter_plot (df : List IRow) (rsquared fdr : Option ℚ)
    (xlabel ylabel title : String) : List PlotAction :=
  let unique_groups := pandasUnique (df.map IRow.group)
  if 0 < (symmDiff unique_groups.toFinset ({0, 1, 2} : Finset ℚ)).card then
    []
  else
    (unique_groups.flatMap (fun g =>
      let subset := df.filter (fun r => r.group = g)
      (if 1 < subset.length then [PlotAction.regression g] else []) ++
        [PlotAction.groupAnnotation g subset.length])) ++
    (match rsquared with
     | some v => [PlotAction.rsquaredAnnotation v]
     | none => []) ++
    (match fdr with
     | some v => [PlotAction.fdrAnnotation v]
     | none => []) ++
    [PlotAction.setTitle title, PlotAction.setYlabel ylabel,
     PlotAction.setXlabel xlabel]

/-- C8: whenever the set of distinct group values of the input dataframe
is not exactly `{0, 1, 2}`, `inter_plot` returns immediately with no
regression, annotation, title or axis label drawn (the action list is
empty); the function is total, so no error is raised, and the early
return prints nothing. -/
theorem c8_early_return (df : List IRow) (rsquared fdr : Option ℚ)
    (xlabel ylabel title : String)
    (h : (df.map IRow.group).toFinset ≠ ({0, 1, 2} : Finset ℚ)) :
    inter_plot df rsquared fdr xlabel ylabel title = [] := by
  unfold inter_plot
  have hpu : (pandasUnique (df.map IRow.group)).toFinset =
      (df.map IRow.group).toFinset := by
    ext a
    simp only [List.mem_toFinset, mem_pandasUnique]
  have hne : symmDiff (pandasUnique (df.map IRow.group)).toFinset
      ({0, 1, 2} : Finset ℚ) ≠ ∅ := by
    rw [hpu]
    intro hc
    rw [← Finset.bot_eq_empty] at hc
    exact h (symmDiff_eq_bot.mp hc)
  rw [if_pos (Finset.card_pos.mpr (Finset.nonempty_iff_ne_empty.mpr hne))]

/-- Witness for `c8_early_return`: a dataframe whose groups are `{0, 1}`
only. -/
theorem c8_early_return_witness :
    (([⟨0, 0, 0⟩, ⟨1, 1, 1⟩] : List IRow).map IRow.group).toFinset ≠
      ({0, 1, 2} : Finset ℚ) ∧
    inter_plot [⟨0, 0, 0⟩, ⟨1, 1, 1⟩] none (some 1) "x" "y" "t" = [] :=
  ⟨by decide,
   c8_early_return [⟨0, 0, 0⟩, ⟨1, 1, 1⟩] none (some 1) "x" "y" "t"
     (by decide)⟩

end Visualiser
